import Mathlib

/-!
Shallow embedding of `scripts/billing_alerts/lambda_function.py`.

The program is a single AWS Lambda handler: it reads `WEBHOOK_URL` from the
environment, queries AWS Cost Explorer twice (total cost and per-service cost
for the current month-to-date window), filters and sorts the per-service
costs, renders a Slack-style block message, POSTs it to the webhook, and maps
success/failure of the whole sequence to a `statusCode` result.

Modelling conventions:
* Python exceptions are `Except String` with the exception text as payload.
* Python `float` values parsed from the decimal strings of the Cost Explorer
  responses are modelled exactly as decimal numbers `Amount` (an integer
  numerator over a power of ten).  Comparisons are by cross multiplication
  over `ℤ`, so every definition is kernel-computable; `Amount.toRat` bridges
  to `ℚ` for specification-level statements.
* The dynamic dict/list shaped API responses are modelled by the JSON-like
  type `JVal`; a missing dict key is a `KeyError`, indexing an empty list an
  `IndexError`, a shape mismatch a `TypeError`, exactly where the Python code
  would raise.
* External effects are oracles passed as arguments: the environment is a
  `String → Option String`, the two `get_cost_and_usage` call results are
  `Except String JVal` values (`.error` = the call raised), and the webhook
  POST is a `PostRequest → Except String Nat` returning the HTTP status.
  `lambda_handler` additionally returns the list of POST requests issued.
* `body` fields of the handler result carry the string argument of
  `json.dumps` (the transport-level JSON quoting of that scalar string is
  not modelled); the webhook request body carries the full `json.dumps`
  serialization of the message, modelled by `jsonDumps`.
-/

/-- Exact decimal number `num / 10 ^ exp`: the model of a Python `float`
parsed from a decimal string such as `"123.456"`. -/
structure Amount where
  num : Int
  exp : Nat
deriving DecidableEq

/-- `10 ^ k` as an integer, by structural recursion (kernel-computable). -/
def pow10 : Nat → Int
  | 0 => 1
  | k + 1 => 10 * pow10 k

/-- Value order on decimal amounts, by cross multiplication. -/
def Amount.le (a b : Amount) : Prop :=
  a.num * pow10 b.exp ≤ b.num * pow10 a.exp

/-- Strict value order on decimal amounts. -/
def Amount.lt (a b : Amount) : Prop :=
  a.num * pow10 b.exp < b.num * pow10 a.exp

/-- Value equality on decimal amounts (`"100.0"` and `"100.00"` parse to
equal floats). -/
def Amount.eqv (a b : Amount) : Prop :=
  a.num * pow10 b.exp = b.num * pow10 a.exp

instance (a b : Amount) : Decidable (a.le b) := by
  unfold Amount.le; infer_instance

instance (a b : Amount) : Decidable (a.lt b) := by
  unfold Amount.lt; infer_instance

instance (a b : Amount) : Decidable (a.eqv b) := by
  unfold Amount.eqv; infer_instance

/-- The rational value of a decimal amount. -/
def Amount.toRat (a : Amount) : ℚ := (a.num : ℚ) / (10 : ℚ) ^ a.exp

theorem pow10_cast (k : Nat) : ((pow10 k : Int) : ℚ) = (10 : ℚ) ^ k := by
  induction k with
  | zero => simp [pow10]
  | succ n ih => push_cast [pow10, pow_succ, ih]; ring

theorem pow10_pos (k : Nat) : (0 : Int) < pow10 k := by
  induction k with
  | zero => simp [pow10]
  | succ n ih => simp [pow10]; positivity

theorem pow10_pos_rat (k : Nat) : (0 : ℚ) < (10 : ℚ) ^ k := by positivity

theorem Amount.toRat_le_iff (a b : Amount) : a.toRat ≤ b.toRat ↔ a.le b := by
  unfold Amount.toRat Amount.le
  rw [div_le_div_iff₀ (pow10_pos_rat a.exp) (pow10_pos_rat b.exp)]
  rw [← pow10_cast, ← pow10_cast]
  exact_mod_cast Iff.rfl

theorem Amount.toRat_lt_iff (a b : Amount) : a.toRat < b.toRat ↔ a.lt b := by
  unfold Amount.toRat Amount.lt
  rw [div_lt_div_iff₀ (pow10_pos_rat a.exp) (pow10_pos_rat b.exp)]
  rw [← pow10_cast, ← pow10_cast]
  exact_mod_cast Iff.rfl

theorem Amount.toRat_eq_iff (a b : Amount) : a.toRat = b.toRat ↔ a.eqv b := by
  unfold Amount.toRat Amount.eqv
  rw [div_eq_div_iff (ne_of_gt (pow10_pos_rat a.exp)) (ne_of_gt (pow10_pos_rat b.exp))]
  rw [← pow10_cast, ← pow10_cast]
  exact_mod_cast Iff.rfl

/-- `datetime.now().date()`: a calendar date (timezone concerns are out of
scope; the date is an oracle input). -/
structure MDate where
  year : Nat
  month : Nat
  day : Nat
deriving DecidableEq

/-- Zero-padded two-digit rendering, as in `strftime` fields `%m`/`%d`. -/
def pad2 (n : Nat) : String :=
  if n < 10 then "0" ++ toString n else toString n

/-- Zero-padded four-digit rendering, as in the `strftime` field `%Y`. -/
def pad4 (n : Nat) : String :=
  if n < 10 then "000" ++ toString n
  else if n < 100 then "00" ++ toString n
  else if n < 1000 then "0" ++ toString n
  else toString n

/-- `date.strftime("%Y-%m-%d")`. -/
def formatDate (d : MDate) : String :=
  pad4 d.year ++ "-" ++ pad2 d.month ++ "-" ++ pad2 d.day

/-- `end_date.replace(day=1)`: first day of the current month. -/
def firstOfMonth (d : MDate) : MDate := ⟨d.year, d.month, 1⟩

/-- The `period` string `"<start> to <end>"` produced by `get_billing_data`. -/
def periodStr (today : MDate) : String :=
  formatDate (firstOfMonth today) ++ " to " ++ formatDate today

/-- Value of a list of decimal digit characters, most significant first. -/
def digitsVal (cs : List Char) : Nat :=
  cs.foldl (fun acc c => acc * 10 + (c.toNat - 48)) 0

/-- Parse an unsigned decimal literal `digits [. digits]` (the fragment of
Python `float(...)` syntax exercised by Cost Explorer amounts). -/
def parseUnsignedDec (cs : List Char) : Option Amount :=
  let ip := cs.takeWhile Char.isDigit
  let rest := cs.dropWhile Char.isDigit
  match rest with
  | [] => if ip.isEmpty then none else some ⟨(digitsVal ip : Int), 0⟩
  | c :: rest2 =>
    if c = '.' then
      let fp := rest2.takeWhile Char.isDigit
      let rest3 := rest2.dropWhile Char.isDigit
      if rest3.isEmpty ∧ ¬(ip.isEmpty ∧ fp.isEmpty) then
        some ⟨(digitsVal ip * 10 ^ fp.length + digitsVal fp : Int), fp.length⟩
      else none
    else none

/-- Parse an optionally signed decimal literal. -/
def parseDec (cs : List Char) : Option Amount :=
  match cs with
  | '-' :: rest => (parseUnsignedDec rest).map (fun a => ⟨-a.num, a.exp⟩)
  | '+' :: rest => parseUnsignedDec rest
  | _ => parseUnsignedDec cs

/-- Python renders a `KeyError` (and the argument of a `ValueError`) by
wrapping the offending key in single quotes: `str(KeyError("k"))` is the
three-character string quote-k-quote (U+0027 on both sides). -/
def pyQuote (k : String) : String :=
  String.singleton (Char.ofNat 39) ++ k ++ String.singleton (Char.ofNat 39)

/-- Python `float(s)`: returns the parsed value or raises `ValueError`. -/
def pyFloat (s : String) : Except String Amount :=
  match parseDec s.data with
  | some a => Except.ok a
  | none => Except.error ("could not convert string to float: " ++ pyQuote s)

/-- JSON-like dynamic value: the shape of a boto3 Cost Explorer response. -/
inductive JVal where
  | str : String → JVal
  | obj : List (String × JVal) → JVal
  | arr : List JVal → JVal

/-- Python `d[k]` on a dict: `KeyError` (whose `str` is the quoted key)
when the key is absent, `TypeError` when the value is not a dict. -/
def JVal.getField (v : JVal) (k : String) : Except String JVal :=
  match v with
  | .obj kvs =>
    match kvs.find? (fun p => p.1 == k) with
    | some p => Except.ok p.2
    | none => Except.error (pyQuote k)
  | _ => Except.error ("TypeError: value is not a dict, key " ++ k)

/-- Require a JSON array (Python list); the code only iterates/indexes
values that the Cost Explorer contract makes lists. -/
def JVal.getArr (v : JVal) : Except String (List JVal) :=
  match v with
  | .arr l => Except.ok l
  | _ => Except.error "TypeError: value is not a list"

/-- Require a JSON string. -/
def JVal.getStr (v : JVal) : Except String String :=
  match v with
  | .str s => Except.ok s
  | _ => Except.error "TypeError: value is not a str"

/-- One included entry of `service_costs`. -/
structure ServiceCost where
  service : String
  cost : Amount
deriving DecidableEq

/-- The dict returned by `get_billing_data`. -/
structure BillingSummary where
  total_cost : Amount
  service_costs : List ServiceCost
  period : String
deriving DecidableEq

/-- Lines 76-78: `total_cost = 0`, overwritten by
`float(total_response["ResultsByTime"][0]["Total"]["UnblendedCost"]["Amount"])`
when the result list is non-empty. -/
def extract_total_cost (tr : JVal) : Except String Amount := do
  let rbt ← tr.getField "ResultsByTime"
  let l ← rbt.getArr
  match l with
  | [] => pure ⟨0, 0⟩
  | r0 :: _ => do
    let t ← r0.getField "Total"
    let u ← t.getField "UnblendedCost"
    let a ← u.getField "Amount"
    let s ← a.getStr
    pyFloat s

/-- Loop body of lines 83-85: `group["Keys"][0]` and
`float(group["Metrics"]["UnblendedCost"]["Amount"])`. -/
def extract_group (g : JVal) : Except String ServiceCost := do
  let keys ← (← g.getField "Keys").getArr
  let k0 ← match keys with
    | [] => Except.error "IndexError: list index out of range"
    | k :: _ => pure k
  let service_name ← k0.getStr
  let a ← (← (← g.getField "Metrics").getField "UnblendedCost").getField "Amount"
  let s ← a.getStr
  let cost ← pyFloat s
  pure ⟨service_name, cost⟩

/-- Lines 83-90: iterate the groups in order, keeping only entries with
`cost > 0.01`. -/
def collectGroups : List JVal → Except String (List ServiceCost)
  | [] => pure []
  | g :: gs => do
    let sc ← extract_group g
    let rest ← collectGroups gs
    if Amount.lt ⟨1, 2⟩ sc.cost then pure (sc :: rest) else pure rest

/-- Lines 81-90: `service_costs = []`, filled from
`service_response["ResultsByTime"][0]["Groups"]` when the result list is
non-empty. -/
def extract_service_costs (sr : JVal) : Except String (List ServiceCost) := do
  let rbt ← sr.getField "ResultsByTime"
  let l ← rbt.getArr
  match l with
  | [] => pure []
  | r0 :: _ => do
    let gs ← (← r0.getField "Groups").getArr
    collectGroups gs

/-- Insert an element into a cost-descending list, before the first element
whose cost is less than or equal to its own: combined with `sortByCostDesc`
folding from the left of the original list, this realises the stable
descending sort of `list.sort(key=lambda x: x["cost"], reverse=True)`. -/
def insertDesc (x : ServiceCost) : List ServiceCost → List ServiceCost
  | [] => [x]
  | y :: ys =>
    if Amount.le y.cost x.cost then x :: y :: ys else y :: insertDesc x ys

/-- Line 93: stable sort by cost, descending. -/
def sortByCostDesc : List ServiceCost → List ServiceCost
  | [] => []
  | x :: xs => insertDesc x (sortByCostDesc xs)

/-- `get_billing_data` (lines 37-99).  `today` is the oracle for
`datetime.now().date()`; `totalResp` and `serviceResp` are the results of
the two `get_cost_and_usage` calls (`.error` = the call raised). -/
def get_billing_data (today : MDate) (totalResp serviceResp : Except String JVal) :
    Except String BillingSummary := do
  let start_str := formatDate (firstOfMonth today)
  let end_str := formatDate today
  let tr ← totalResp
  let sr ← serviceResp
  let total_cost ← extract_total_cost tr
  let raw ← extract_service_costs sr
  pure ⟨total_cost, sortByCostDesc raw, start_str ++ " to " ++ end_str⟩

/-- Round `a * 100` to the nearest integer, halves to even: the rounding of
the Python format spec `:.2f`. -/
def cents (a : Amount) : Int :=
  let n : Int := a.num * 100
  let e : Int := pow10 a.exp
  let f : Int := Int.fdiv n e
  let r : Int := n - f * e
  if 2 * r < e then f
  else if e < 2 * r then f + 1
  else if f % 2 = 0 then f else f + 1

/-- Render a nonnegative number of cents as `<dollars>.<2-digit cents>`. -/
def centsRender (m : Nat) : String :=
  toString (m / 100) ++ "." ++ pad2 (m % 100)

/-- The Python format `f"{x:.2f}"` on a (decimal-valued) float. -/
def fmt2 (a : Amount) : String :=
  let c := cents a
  if c < 0 then "-" ++ centsRender c.natAbs else centsRender c.toNat

/-- One bullet line of the service breakdown (line 134). -/
def serviceLine (sc : ServiceCost) : String :=
  "• " ++ sc.service ++ ": $" ++ fmt2 sc.cost ++ "\n"

/-- The fixed header block (lines 113-119). -/
def headerBlock : JVal :=
  .obj [("type", .str "header"),
        ("text", .obj [("type", .str "plain_text"),
                       ("text", .str "🏦 AWS Billing Alert")])]

/-- A `section` block with `mrkdwn` text (lines 120-126 and 136-142). -/
def sectionBlock (text : String) : JVal :=
  .obj [("type", .str "section"),
        ("text", .obj [("type", .str "mrkdwn"), ("text", .str text)])]

/-- The accumulated `service_text` string of lines 132-134. -/
def topServicesText (scs : List ServiceCost) : String :=
  (scs.take 10).foldl (fun acc sc => acc ++ serviceLine sc) "*Top Services:*\n"

/-- The `blocks` list of the message dict (lines 111-142): header block,
summary block, and — only when `service_costs` is non-empty — the top-10
service breakdown block. -/
def messageBlocks (billing_data : BillingSummary) : List JVal :=
  let base := [headerBlock,
               sectionBlock ("*Total Cost:* $" ++ fmt2 billing_data.total_cost ++
                             "\n*Period:* " ++ billing_data.period)]
  if billing_data.service_costs.isEmpty then base
  else base ++ [sectionBlock (topServicesText billing_data.service_costs)]

/-- The full message dict passed to `json.dumps`. -/
def buildMessage (billing_data : BillingSummary) : JVal :=
  .obj [("blocks", .arr (messageBlocks billing_data))]

/-- Lower-case hexadecimal digit. -/
def hexDigit (n : Nat) : Char :=
  if n < 10 then Char.ofNat (48 + n) else Char.ofNat (87 + n)

/-- Four lower-case hex digits, as in a JSON `\uXXXX` escape. -/
def hex4 (n : Nat) : String :=
  String.mk [hexDigit (n / 4096 % 16), hexDigit (n / 256 % 16),
             hexDigit (n / 16 % 16), hexDigit (n % 16)]

/-- Escape one character as Python `json.dumps` does with its default
`ensure_ascii=True`: short escapes for the common control characters,
`\uXXXX` for other control and all non-ASCII characters (surrogate pairs
beyond the BMP). -/
def escChar (c : Char) : String :=
  if c = '"' then "\\\""
  else if c = '\\' then "\\\\"
  else if c = '\n' then "\\n"
  else if c = '\t' then "\\t"
  else if c = '\r' then "\\r"
  else if c.toNat = 8 then "\\b"
  else if c.toNat = 12 then "\\f"
  else if c.toNat < 32 then "\\u" ++ hex4 c.toNat
  else if c.toNat < 127 then String.mk [c]
  else if c.toNat < 65536 then "\\u" ++ hex4 c.toNat
  else
    let v := c.toNat - 65536
    "\\u" ++ hex4 (55296 + v / 1024) ++ "\\u" ++ hex4 (56320 + v % 1024)

/-- A JSON string literal as serialized by `json.dumps`. -/
def dumpsStr (s : String) : String :=
  "\"" ++ String.join (s.data.map escChar) ++ "\""

mutual

/-- Python `json.dumps` with its default separators `", "` and `": "` and
default `ensure_ascii=True`, restricted to the value shapes this program
builds (strings, dicts with string keys, lists). -/
def jsonDumps : JVal → String
  | .str s => dumpsStr s
  | .obj kvs => "\x7b" ++ dumpsObj kvs ++ "\x7d"
  | .arr vs => "[" ++ dumpsArr vs ++ "]"

/-- Comma-separated `"key": value` members of a JSON object. -/
def dumpsObj : List (String × JVal) → String
  | [] => ""
  | [(k, v)] => dumpsStr k ++ ": " ++ jsonDumps v
  | (k, v) :: p :: rest => dumpsStr k ++ ": " ++ jsonDumps v ++ ", " ++ dumpsObj (p :: rest)

/-- Comma-separated elements of a JSON array. -/
def dumpsArr : List JVal → String
  | [] => ""
  | [v] => jsonDumps v
  | v :: w :: rest => jsonDumps v ++ ", " ++ dumpsArr (w :: rest)

end

/-- An HTTP POST issued by `urllib3` on behalf of the notifier: the webhook
URL and the serialized body (the `Content-Type: application/json` header is
fixed and not modelled as data). -/
structure PostRequest where
  url : String
  body : String
deriving DecidableEq

/-- `send_webhook_notification` (lines 101-156).  `http` is the oracle for
`urllib3.PoolManager().request("POST", ...)`: it yields the response status,
or `.error` when the network request itself raises.  Besides the Python
return value (`.ok ()` = returned normally, `.error` = raised) the model
returns the list of POST requests issued. -/
def send_webhook_notification (webhook_url : String) (billing_data : BillingSummary)
    (http : PostRequest → Except String Nat) :
    Except String Unit × List PostRequest :=
  let message := buildMessage billing_data
  let req : PostRequest := ⟨webhook_url, jsonDumps message⟩
  match http req with
  | .error e => (.error e, [req])
  | .ok status =>
    if status = 200 then (.ok (), [req])
    else (.error ("Webhook failed with status " ++ toString status), [req])

/-- The dict returned by `lambda_handler`.  `body` holds the string argument
of `json.dumps` (its JSON quoting is transport encoding, not modelled). -/
structure LambdaResult where
  statusCode : Nat
  body : String
deriving DecidableEq

/-- `lambda_handler` (lines 8-35).  `event` and `context` are the Lambda
invocation arguments; `env` is the oracle for `os.environ` (a `none` for
`WEBHOOK_URL` is the `KeyError` of line 14, whose `str` is the quoted key);
`today`, `totalResp`, `serviceResp` and `http` are the oracles of the
helpers.  Returns the result dict together with the list of webhook POSTs
issued. -/
def lambda_handler (event context : JVal) (env : String → Option String)
    (today : MDate) (totalResp serviceResp : Except String JVal)
    (http : PostRequest → Except String Nat) :
    LambdaResult × List PostRequest :=
  match env "WEBHOOK_URL" with
  | none => (⟨500, "Error: " ++ pyQuote "WEBHOOK_URL"⟩, [])
  | some webhook_url =>
    match get_billing_data today totalResp serviceResp with
    | .error e => (⟨500, "Error: " ++ e⟩, [])
    | .ok billing_data =>
      match send_webhook_notification webhook_url billing_data http with
      | (.ok _, posts) => (⟨200, "Billing alert sent successfully"⟩, posts)
      | (.error e, posts) => (⟨500, "Error: " ++ e⟩, posts)

theorem ok_bind {α β : Type} (a : α) (f : α → Except String β) :
    (Except.ok a >>= f) = f a := rfl

theorem error_bind {α β : Type} (e : String) (f : α → Except String β) :
    ((Except.error e : Except String α) >>= f) = Except.error e := rfl

theorem pure_eq_ok {α : Type} (a : α) : (pure a : Except String α) = Except.ok a := rfl

theorem Amount.le_trans {a b c : Amount} (h1 : a.le b) (h2 : b.le c) : a.le c := by
  rw [← Amount.toRat_le_iff] at *
  exact h1.trans h2

theorem Amount.le_of_not_le {a b : Amount} (h : ¬ a.le b) : b.le a := by
  rw [← Amount.toRat_le_iff] at *
  exact (not_le.mp h).le

theorem Amount.lt_of_not_le {a b : Amount} (h : ¬ a.le b) : b.lt a := by
  rw [← Amount.toRat_le_iff] at h
  rw [← Amount.toRat_lt_iff]
  exact not_le.mp h

/-- The comparison key used by the descending sort of line 93. -/
def costGE (a b : ServiceCost) : Prop := Amount.le b.cost a.cost

theorem insertDesc_perm (x : ServiceCost) (l : List ServiceCost) :
    (insertDesc x l).Perm (x :: l) := by
  induction l with
  | nil => simp [insertDesc]
  | cons y ys ih =>
    by_cases h : Amount.le y.cost x.cost
    · simp [insertDesc, h]
    · simp only [insertDesc, h, if_neg, not_false_iff]
      exact (List.Perm.cons y ih).trans (List.Perm.swap x y ys)

theorem sortByCostDesc_perm (l : List ServiceCost) :
    (sortByCostDesc l).Perm l := by
  induction l with
  | nil => simp [sortByCostDesc]
  | cons x xs ih =>
    exact (insertDesc_perm x (sortByCostDesc xs)).trans (List.Perm.cons x ih)

theorem mem_insertDesc {z x : ServiceCost} {l : List ServiceCost}
    (h : z ∈ insertDesc x l) : z = x ∨ z ∈ l := by
  have := (insertDesc_perm x l).mem_iff.mp h
  simpa using this

theorem insertDesc_sorted (x : ServiceCost) (l : List ServiceCost)
    (h : l.Pairwise costGE) : (insertDesc x l).Pairwise costGE := by
  induction l with
  | nil => simp [insertDesc, List.Pairwise]
  | cons y ys ih =>
    rcases List.pairwise_cons.mp h with ⟨hy, hys⟩
    by_cases hle : Amount.le y.cost x.cost
    · simp only [insertDesc, hle, if_pos]
      refine List.pairwise_cons.mpr ⟨?_, h⟩
      intro z hz
      rcases List.mem_cons.mp hz with rfl | hz2
      · exact hle
      · exact Amount.le_trans (hy z hz2) hle
    · simp only [insertDesc, hle, if_neg, not_false_iff]
      refine List.pairwise_cons.mpr ⟨?_, ih hys⟩
      intro z hz
      rcases mem_insertDesc hz with rfl | hz2
      · exact Amount.le_of_not_le hle
      · exact hy z hz2

theorem sortByCostDesc_sorted (l : List ServiceCost) :
    (sortByCostDesc l).Pairwise costGE := by
  induction l with
  | nil => simp [sortByCostDesc]
  | cons x xs ih => exact insertDesc_sorted x (sortByCostDesc xs) ih

theorem filter_insertDesc (c : ℚ) (x : ServiceCost) (l : List ServiceCost) :
    (insertDesc x l).filter (fun z => decide (z.cost.toRat = c)) =
      if x.cost.toRat = c then x :: l.filter (fun z => decide (z.cost.toRat = c))
      else l.filter (fun z => decide (z.cost.toRat = c)) := by
  induction l with
  | nil => by_cases h : x.cost.toRat = c <;> simp [insertDesc, List.filter, h]
  | cons y ys ih =>
    by_cases hle : Amount.le y.cost x.cost
    · by_cases hx : x.cost.toRat = c <;>
        simp [insertDesc, hle, List.filter_cons, hx]
    · have hlt : x.cost.toRat < y.cost.toRat := by
        rw [Amount.toRat_lt_iff]
        exact Amount.lt_of_not_le hle
      simp only [insertDesc, hle, if_neg, not_false_iff, List.filter_cons]
      by_cases hx : x.cost.toRat = c
      · have hy : ¬ (y.cost.toRat = c) := by
          intro hc
          rw [hx] at hlt
          rw [hc] at hlt
          exact lt_irrefl c hlt
        simp [ih, hx, hy]
      · by_cases hy : y.cost.toRat = c <;> simp [ih, hx, hy]

theorem sortByCostDesc_filter (c : ℚ) (l : List ServiceCost) :
    (sortByCostDesc l).filter (fun z => decide (z.cost.toRat = c)) =
      l.filter (fun z => decide (z.cost.toRat = c)) := by
  induction l with
  | nil => simp [sortByCostDesc]
  | cons x xs ih =>
    by_cases hx : x.cost.toRat = c <;>
      simp [sortByCostDesc, filter_insertDesc, hx, List.filter_cons, ih]

theorem collectGroups_cost_gt (gs : List JVal) (l : List ServiceCost)
    (h : collectGroups gs = .ok l) :
    ∀ sc ∈ l, Amount.lt ⟨1, 2⟩ sc.cost := by
  induction gs generalizing l with
  | nil =>
    simp only [collectGroups, pure_eq_ok, Except.ok.injEq] at h
    subst h
    intro sc hsc
    exact absurd hsc (List.not_mem_nil sc)
  | cons g gs ih =>
    cases hg : extract_group g with
    | error e =>
      rw [collectGroups, hg, error_bind] at h
      exact absurd h (by simp)
    | ok sc0 =>
      cases hrest : collectGroups gs with
      | error e =>
        rw [collectGroups, hg, ok_bind, hrest, error_bind] at h
        exact absurd h (by simp)
      | ok rest =>
        rw [collectGroups, hg, ok_bind, hrest, ok_bind] at h
        by_cases hc : Amount.lt ⟨1, 2⟩ sc0.cost
        · rw [if_pos hc, pure_eq_ok, Except.ok.injEq] at h
          subst h
          intro sc hsc
          rcases List.mem_cons.mp hsc with rfl | hsc2
          · exact hc
          · exact ih rest hrest sc hsc2
        · rw [if_neg hc, pure_eq_ok, Except.ok.injEq] at h
          subst h
          exact ih rest hrest

theorem collectGroups_ok_group (gs : List JVal) (l : List ServiceCost)
    (h : collectGroups gs = .ok l) :
    ∀ g ∈ gs, ∃ sc, extract_group g = .ok sc := by
  induction gs generalizing l with
  | nil => intro g hg; exact absurd hg (List.not_mem_nil g)
  | cons g0 gs ih =>
    cases hg : extract_group g0 with
    | error e =>
      rw [collectGroups, hg, error_bind] at h
      exact absurd h (by simp)
    | ok sc0 =>
      cases hrest : collectGroups gs with
      | error e =>
        rw [collectGroups, hg, ok_bind, hrest, error_bind] at h
        exact absurd h (by simp)
      | ok rest =>
        intro g hgmem
        rcases List.mem_cons.mp hgmem with rfl | hmem2
        · exact ⟨sc0, hg⟩
        · exact ih rest hrest g hmem2

theorem extract_service_costs_cost_gt (vs : JVal) (raw : List ServiceCost)
    (h : extract_service_costs vs = .ok raw) :
    ∀ sc ∈ raw, Amount.lt ⟨1, 2⟩ sc.cost := by
  unfold extract_service_costs at h
  cases h1 : vs.getField "ResultsByTime" with
  | error e => rw [h1, error_bind] at h; exact absurd h (by simp)
  | ok rbt =>
    rw [h1, ok_bind] at h
    cases h2 : rbt.getArr with
    | error e => rw [h2, error_bind] at h; exact absurd h (by simp)
    | ok l =>
      rw [h2, ok_bind] at h
      cases l with
      | nil =>
        simp only [pure_eq_ok, Except.ok.injEq] at h
        subst h
        intro sc hsc
        exact absurd hsc (List.not_mem_nil sc)
      | cons r0 rl =>
        simp only at h
        cases h3 : r0.getField "Groups" with
        | error e => rw [h3, error_bind] at h; exact absurd h (by simp)
        | ok gv =>
          rw [h3, ok_bind] at h
          cases h4 : gv.getArr with
          | error e => rw [h4, error_bind] at h; exact absurd h (by simp)
          | ok gs =>
            rw [h4, ok_bind] at h
            exact collectGroups_cost_gt gs raw h

/-- Inversion of a successful `get_billing_data` run: both API calls
returned, both extractions succeeded, and the result is assembled from them
with the sorted service list and the period string. -/
theorem get_billing_data_ok_inv (today : MDate) (tr sr : Except String JVal)
    (bd : BillingSummary) (h : get_billing_data today tr sr = .ok bd) :
    ∃ vt vs tc raw, tr = .ok vt ∧ sr = .ok vs ∧
      extract_total_cost vt = .ok tc ∧ extract_service_costs vs = .ok raw ∧
      bd = ⟨tc, sortByCostDesc raw, periodStr today⟩ := by
  cases tr with
  | error e => rw [get_billing_data] at h; exact absurd h (by simp [error_bind])
  | ok vt =>
    cases sr with
    | error e =>
      rw [get_billing_data, ok_bind] at h
      exact absurd h (by simp [error_bind])
    | ok vs =>
      rw [get_billing_data, ok_bind, ok_bind] at h
      cases h1 : extract_total_cost vt with
      | error e => rw [h1, error_bind] at h; exact absurd h (by simp)
      | ok tc =>
        rw [h1, ok_bind] at h
        cases h2 : extract_service_costs vs with
        | error e => rw [h2, error_bind] at h; exact absurd h (by simp)
        | ok raw =>
          rw [h2, ok_bind, pure_eq_ok, Except.ok.injEq] at h
          exact ⟨vt, vs, tc, raw, rfl, rfl, h1, h2, h.symm⟩

/-- Claim C3: every service group whose parsed cost is at most 0.01 dollars
is excluded from `service_costs`, and every included entry has cost
strictly greater than 0.01. -/
theorem C3_small_costs_filtered (today : MDate) (tr sr : Except String JVal)
    (bd : BillingSummary) (h : get_billing_data today tr sr = .ok bd) :
    (∀ sc ∈ bd.service_costs, (1 : ℚ) / 100 < sc.cost.toRat) ∧
      (∀ sc : ServiceCost, sc.cost.toRat ≤ 1 / 100 → sc ∉ bd.service_costs) := by
  obtain ⟨vt, vs, tc, raw, htr, hsr, htc, hraw, hbd⟩ :=
    get_billing_data_ok_inv today tr sr bd h
  have key : ∀ sc ∈ bd.service_costs, (1 : ℚ) / 100 < sc.cost.toRat := by
    intro sc hsc
    have hmem : sc ∈ raw := by
      rw [hbd] at hsc
      exact (sortByCostDesc_perm raw).mem_iff.mp hsc
    have h2 := extract_service_costs_cost_gt vs raw hraw sc hmem
    rw [← Amount.toRat_lt_iff] at h2
    have h3 : (Amount.mk 1 2).toRat = 1 / 100 := by norm_num [Amount.toRat, pow10]
    rw [h3] at h2
    exact h2
  exact ⟨key, fun sc hle hin => absurd (key sc hin) (not_lt.mpr hle)⟩

/-- Claim C3 witness at scenario-A style concrete inputs. -/
theorem C3_small_costs_filtered_witness :
    (∀ sc ∈ ([⟨"EC2", ⟨10000, 2⟩⟩, ⟨"S3", ⟨23456, 3⟩⟩] : List ServiceCost),
      (1 : ℚ) / 100 < sc.cost.toRat) ∧
    (∀ sc : ServiceCost, sc.cost.toRat ≤ 1 / 100 →
      sc ∉ ([⟨"EC2", ⟨10000, 2⟩⟩, ⟨"S3", ⟨23456, 3⟩⟩] : List ServiceCost)) := by
  have h := C3_small_costs_filtered ⟨2025, 6, 15⟩
    (.ok (.obj [("ResultsByTime", .arr [.obj [("Total", .obj [("UnblendedCost",
      .obj [("Amount", .str "123.456"), ("Unit", .str "USD")])])]])]))
    (.ok (.obj [("ResultsByTime", .arr [.obj [("Groups", .arr [
      .obj [("Keys", .arr [.str "EC2"]), ("Metrics", .obj [("UnblendedCost",
        .obj [("Amount", .str "100.00"), ("Unit", .str "USD")])])],
      .obj [("Keys", .arr [.str "S3"]), ("Metrics", .obj [("UnblendedCost",
        .obj [("Amount", .str "23.456"), ("Unit", .str "USD")])])]])]])]))
    ⟨⟨123456, 3⟩, [⟨"EC2", ⟨10000, 2⟩⟩, ⟨"S3", ⟨23456, 3⟩⟩], "2025-06-01 to 2025-06-15"⟩
    rfl
  exact h

/-- Claim C4: the returned `service_costs` is exactly the stable descending
sort of the extracted raw entries: it is a permutation of them, is sorted by
descending cost, and entries of equal cost keep the relative order in which
the API returned them (the filter at any cost value is unchanged). -/
theorem C4_service_costs_sorted_stable (today : MDate) (vt vs : JVal)
    (raw : List ServiceCost) (bd : BillingSummary)
    (hraw : extract_service_costs vs = .ok raw)
    (h : get_billing_data today (.ok vt) (.ok vs) = .ok bd) :
    bd.service_costs = sortByCostDesc raw ∧
    List.Pairwise (fun a b => b.cost.toRat ≤ a.cost.toRat) bd.service_costs ∧
    bd.service_costs.Perm raw ∧
    ∀ c : ℚ, bd.service_costs.filter (fun z => decide (z.cost.toRat = c)) =
      raw.filter (fun z => decide (z.cost.toRat = c)) := by
  obtain ⟨vt2, vs2, tc, raw2, htr, hsr, htc, hraw2, hbd⟩ :=
    get_billing_data_ok_inv today (.ok vt) (.ok vs) bd h
  injection hsr with hvs
  subst hvs
  rw [hraw] at hraw2
  injection hraw2 with hraw3
  subst hraw3
  have hcosts : bd.service_costs = sortByCostDesc raw := by rw [hbd]
  refine ⟨hcosts, ?_, ?_, ?_⟩
  · rw [hcosts]
    exact (sortByCostDesc_sorted raw).imp
      (fun hab => (Amount.toRat_le_iff _ _).mpr hab)
  · rw [hcosts]; exact sortByCostDesc_perm raw
  · intro c; rw [hcosts]; exact sortByCostDesc_filter c raw

/-- Claim C4 witness at concrete inputs. -/
theorem C4_service_costs_sorted_stable_witness :
    ([⟨"EC2", ⟨10000, 2⟩⟩, ⟨"S3", ⟨23456, 3⟩⟩] : List ServiceCost) =
      sortByCostDesc [⟨"EC2", ⟨10000, 2⟩⟩, ⟨"S3", ⟨23456, 3⟩⟩] ∧
    List.Pairwise (fun a b => b.cost.toRat ≤ a.cost.toRat)
      ([⟨"EC2", ⟨10000, 2⟩⟩, ⟨"S3", ⟨23456, 3⟩⟩] : List ServiceCost) ∧
    ([⟨"EC2", ⟨10000, 2⟩⟩, ⟨"S3", ⟨23456, 3⟩⟩] : List ServiceCost).Perm
      [⟨"EC2", ⟨10000, 2⟩⟩, ⟨"S3", ⟨23456, 3⟩⟩] ∧
    ∀ c : ℚ, ([⟨"EC2", ⟨10000, 2⟩⟩, ⟨"S3", ⟨23456, 3⟩⟩] : List ServiceCost).filter
        (fun z => decide (z.cost.toRat = c)) =
      ([⟨"EC2", ⟨10000, 2⟩⟩, ⟨"S3", ⟨23456, 3⟩⟩] : List ServiceCost).filter
        (fun z => decide (z.cost.toRat = c)) := by
  have h := C4_service_costs_sorted_stable ⟨2025, 6, 15⟩
    (.obj [("ResultsByTime", .arr [.obj [("Total", .obj [("UnblendedCost",
      .obj [("Amount", .str "123.456"), ("Unit", .str "USD")])])]])])
    (.obj [("ResultsByTime", .arr [.obj [("Groups", .arr [
      .obj [("Keys", .arr [.str "EC2"]), ("Metrics", .obj [("UnblendedCost",
        .obj [("Amount", .str "100.00"), ("Unit", .str "USD")])])],
      .obj [("Keys", .arr [.str "S3"]), ("Metrics", .obj [("UnblendedCost",
        .obj [("Amount", .str "23.456"), ("Unit", .str "USD")])])]])]])])
    [⟨"EC2", ⟨10000, 2⟩⟩, ⟨"S3", ⟨23456, 3⟩⟩]
    ⟨⟨123456, 3⟩, [⟨"EC2", ⟨10000, 2⟩⟩, ⟨"S3", ⟨23456, 3⟩⟩], "2025-06-01 to 2025-06-15"⟩
    rfl rfl
  exact h

/-- Claim C6: when both cost-API responses have an empty `ResultsByTime`
list, `get_billing_data` succeeds with total cost 0 and an empty service
list. -/
theorem C6_empty_results (today : MDate) (vt vs : JVal)
    (h1 : vt.getField "ResultsByTime" = .ok (.arr []))
    (h2 : vs.getField "ResultsByTime" = .ok (.arr [])) :
    get_billing_data today (.ok vt) (.ok vs) =
      .ok ⟨⟨0, 0⟩, [], periodStr today⟩ ∧ (Amount.mk 0 0).toRat = 0 := by
  constructor
  · have htc : extract_total_cost vt = .ok ⟨0, 0⟩ := by
      unfold extract_total_cost
      rw [h1, ok_bind]
      rfl
    have hsc : extract_service_costs vs = .ok [] := by
      unfold extract_service_costs
      rw [h2, ok_bind]
      rfl
    unfold get_billing_data
    rw [ok_bind, ok_bind, htc, ok_bind, hsc, ok_bind]
    rfl
  · norm_num [Amount.toRat]

/-- Claim C6 witness at a concrete date and concrete empty responses. -/
theorem C6_empty_results_witness :
    get_billing_data ⟨2025, 6, 15⟩ (.ok (.obj [("ResultsByTime", .arr [])]))
      (.ok (.obj [("ResultsByTime", .arr [])])) =
      .ok ⟨⟨0, 0⟩, [], "2025-06-01 to 2025-06-15"⟩ ∧ (Amount.mk 0 0).toRat = 0 :=
  C6_empty_results ⟨2025, 6, 15⟩ (.obj [("ResultsByTime", .arr [])])
    (.obj [("ResultsByTime", .arr [])]) rfl rfl

/-- Claim C9: when the webhook URL is configured but `get_billing_data`
raises, the handler returns `statusCode` 500 with the error text and no
webhook POST is ever issued. -/
theorem C9_no_post_on_retrieval_failure (event context : JVal)
    (env : String → Option String) (url : String) (today : MDate)
    (tr sr : Except String JVal) (http : PostRequest → Except String Nat)
    (e : String) (henv : env "WEBHOOK_URL" = some url)
    (hgbd : get_billing_data today tr sr = .error e) :
    lambda_handler event context env today tr sr http =
      (⟨500, "Error: " ++ e⟩, []) := by
  unfold lambda_handler
  rw [henv, hgbd]

/-- Claim C9 witness at concrete inputs. -/
theorem C9_no_post_on_retrieval_failure_witness :
    lambda_handler (.obj []) (.obj [])
      (fun k => if k = "WEBHOOK_URL" then some "https://hooks.example/T0" else none)
      ⟨2025, 6, 15⟩ (.error "ConnectionError") (.ok (.obj []))
      (fun _ => .ok 200) =
      (⟨500, "Error: " ++ "ConnectionError"⟩, []) :=
  C9_no_post_on_retrieval_failure (.obj []) (.obj [])
    (fun k => if k = "WEBHOOK_URL" then some "https://hooks.example/T0" else none)
    "https://hooks.example/T0" ⟨2025, 6, 15⟩ (.error "ConnectionError")
    (.ok (.obj [])) (fun _ => .ok 200) "ConnectionError" rfl rfl

/-- Claim C10: the `event` and `context` arguments have no influence on the
handler: two invocations differing only in them yield the same result and
the same webhook requests. -/
theorem C10_event_context_ignored (event1 context1 event2 context2 : JVal)
    (env : String → Option String) (today : MDate)
    (tr sr : Except String JVal) (http : PostRequest → Except String Nat) :
    lambda_handler event1 context1 env today tr sr http =
      lambda_handler event2 context2 env today tr sr http := rfl

theorem foldl_string_append_shift (l : List String) (s : String) :
    l.foldl (fun r t => r ++ t) s = s ++ l.foldl (fun r t => r ++ t) "" := by
  induction l generalizing s with
  | nil => simp [List.foldl]
  | cons a l ih =>
    simp only [List.foldl]
    rw [ih (s ++ a), ih ("" ++ a)]
    simp [String.append_assoc]

theorem string_join_cons (a : String) (l : List String) :
    String.join (a :: l) = a ++ String.join l := by
  simp only [String.join, List.foldl]
  rw [foldl_string_append_shift l ("" ++ a)]
  simp

theorem foldl_serviceLine_eq (l : List ServiceCost) (init : String) :
    l.foldl (fun acc sc => acc ++ serviceLine sc) init =
      init ++ String.join (l.map serviceLine) := by
  induction l generalizing init with
  | nil => simp [String.join, List.foldl]
  | cons x xs ih =>
    simp only [List.foldl, List.map]
    rw [ih, string_join_cons, ← String.append_assoc]

/-- Claim C5: the message has a service-list block exactly when
`service_costs` is non-empty, and that block renders one bullet line per
entry of the first 10 entries in pre-sorted order (hence at most 10). -/
theorem C5_service_block_iff_nonempty (bd : BillingSummary) :
    (bd.service_costs ≠ [] ↔
      messageBlocks bd =
        [headerBlock,
         sectionBlock ("*Total Cost:* $" ++ fmt2 bd.total_cost ++
           "\n*Period:* " ++ bd.period),
         sectionBlock (topServicesText bd.service_costs)]) ∧
    (bd.service_costs = [] →
      messageBlocks bd =
        [headerBlock,
         sectionBlock ("*Total Cost:* $" ++ fmt2 bd.total_cost ++
           "\n*Period:* " ++ bd.period)]) ∧
    topServicesText bd.service_costs =
      "*Top Services:*\n" ++
        String.join ((bd.service_costs.take 10).map serviceLine) ∧
    (bd.service_costs.take 10).length ≤ 10 := by
  refine ⟨?_, ?_, ?_, ?_⟩
  · cases hsc : bd.service_costs with
    | nil =>
      constructor
      · intro hne; exact absurd rfl hne
      · intro hblocks
        have h2 : messageBlocks bd =
            [headerBlock,
             sectionBlock ("*Total Cost:* $" ++ fmt2 bd.total_cost ++
               "\n*Period:* " ++ bd.period)] := by
          unfold messageBlocks
          rw [hsc]
          rfl
        rw [h2] at hblocks
        have := congrArg List.length hblocks
        simp at this
    | cons x xs =>
      constructor
      · intro _
        unfold messageBlocks
        rw [hsc]
        rfl
      · intro _
        simp [hsc]
  · intro hsc
    unfold messageBlocks
    rw [hsc]
    rfl
  · unfold topServicesText
    exact foldl_serviceLine_eq (bd.service_costs.take 10) "*Top Services:*\n"
  · exact List.length_take_le 10 bd.service_costs

/-- Claim C5 witness: the three-block message of a concrete two-service
summary. -/
theorem C5_service_block_iff_nonempty_witness :
    messageBlocks ⟨⟨123456, 3⟩, [⟨"EC2", ⟨10000, 2⟩⟩, ⟨"S3", ⟨23456, 3⟩⟩],
        "2025-06-01 to 2025-06-15"⟩ =
      [headerBlock,
       sectionBlock "*Total Cost:* $123.46\n*Period:* 2025-06-01 to 2025-06-15",
       sectionBlock "*Top Services:*\n• EC2: $100.00\n• S3: $23.46\n"] := by
  have h := (C5_service_block_iff_nonempty
    ⟨⟨123456, 3⟩, [⟨"EC2", ⟨10000, 2⟩⟩, ⟨"S3", ⟨23456, 3⟩⟩],
      "2025-06-01 to 2025-06-15"⟩).1.mp (by decide)
  rw [h]
  rfl

/-- Claim C1: the handler returns `{statusCode: 200, body: "Billing alert
sent successfully"}` exactly when reading the configuration, retrieving the
billing data and delivering the notification all succeed; and every failing
step yields `{statusCode: 500, body: "Error: <message>"}` where `<message>`
is that step's raised error text: the `str` of the `KeyError` (the quoted
key) when `WEBHOOK_URL` is missing, the retrieval error text when
`get_billing_data` raises, and the delivery error text when
`send_webhook_notification` raises. -/
theorem C1_result_status_mapping (event context : JVal)
    (env : String → Option String) (today : MDate)
    (tr sr : Except String JVal) (http : PostRequest → Except String Nat) :
    ((∃ url bd, env "WEBHOOK_URL" = some url ∧
        get_billing_data today tr sr = .ok bd ∧
        (send_webhook_notification url bd http).1 = .ok ()) →
      (lambda_handler event context env today tr sr http).1 =
        ⟨200, "Billing alert sent successfully"⟩) ∧
    (env "WEBHOOK_URL" = none →
      (lambda_handler event context env today tr sr http).1 =
        ⟨500, "Error: " ++ pyQuote "WEBHOOK_URL"⟩) ∧
    (∀ url e, env "WEBHOOK_URL" = some url →
      get_billing_data today tr sr = .error e →
      (lambda_handler event context env today tr sr http).1 =
        ⟨500, "Error: " ++ e⟩) ∧
    (∀ url bd e, env "WEBHOOK_URL" = some url →
      get_billing_data today tr sr = .ok bd →
      (send_webhook_notification url bd http).1 = .error e →
      (lambda_handler event context env today tr sr http).1 =
        ⟨500, "Error: " ++ e⟩) := by
  refine ⟨?_, ?_, ?_, ?_⟩
  · rintro ⟨url, bd, henv, hgbd, hsendok⟩
    cases hsend : send_webhook_notification url bd http with
    | mk sres posts =>
      rw [hsend] at hsendok
      dsimp only at hsendok
      subst hsendok
      unfold lambda_handler
      rw [henv, hgbd]
      dsimp only
      rw [hsend]
  · intro henv
    unfold lambda_handler
    rw [henv]
  · intro url e henv hgbd
    unfold lambda_handler
    rw [henv, hgbd]
  · intro url bd e henv hgbd hsendok
    cases hsend : send_webhook_notification url bd http with
    | mk sres posts =>
      rw [hsend] at hsendok
      dsimp only at hsendok
      subst hsendok
      unfold lambda_handler
      rw [henv, hgbd]
      dsimp only
      rw [hsend]

/-- Claim C1 witness: four concrete runs, one per branch — all steps
succeed; the webhook URL is missing; the first cost-API call raises; the
webhook answers 503. -/
theorem C1_result_status_mapping_witness :
    (lambda_handler (.obj []) (.obj [])
        (fun k => if k = "WEBHOOK_URL" then some "https://hooks.example/T0" else none)
        ⟨2025, 6, 15⟩ (.ok (.obj [("ResultsByTime", .arr [])]))
        (.ok (.obj [("ResultsByTime", .arr [])])) (fun _ => .ok 200)).1 =
      ⟨200, "Billing alert sent successfully"⟩ ∧
    (lambda_handler (.obj []) (.obj []) (fun _ => none)
        ⟨2025, 6, 15⟩ (.ok (.obj [("ResultsByTime", .arr [])]))
        (.ok (.obj [("ResultsByTime", .arr [])])) (fun _ => .ok 200)).1 =
      ⟨500, "Error: " ++ pyQuote "WEBHOOK_URL"⟩ ∧
    (lambda_handler (.obj []) (.obj [])
        (fun k => if k = "WEBHOOK_URL" then some "https://hooks.example/T0" else none)
        ⟨2025, 6, 15⟩ (.error "RateLimitExceeded") (.ok (.obj []))
        (fun _ => .ok 200)).1 =
      ⟨500, "Error: " ++ "RateLimitExceeded"⟩ ∧
    (lambda_handler (.obj []) (.obj [])
        (fun k => if k = "WEBHOOK_URL" then some "https://hooks.example/T0" else none)
        ⟨2025, 6, 15⟩ (.ok (.obj [("ResultsByTime", .arr [])]))
        (.ok (.obj [("ResultsByTime", .arr [])])) (fun _ => .ok 503)).1 =
      ⟨500, "Error: " ++ ("Webhook failed with status " ++ toString 503)⟩ :=
  ⟨(C1_result_status_mapping (.obj []) (.obj [])
      (fun k => if k = "WEBHOOK_URL" then some "https://hooks.example/T0" else none)
      ⟨2025, 6, 15⟩ (.ok (.obj [("ResultsByTime", .arr [])]))
      (.ok (.obj [("ResultsByTime", .arr [])])) (fun _ => .ok 200)).1
      ⟨"https://hooks.example/T0",
       ⟨⟨0, 0⟩, [], "2025-06-01 to 2025-06-15"⟩, rfl, rfl, rfl⟩,
   (C1_result_status_mapping (.obj []) (.obj []) (fun _ => none)
      ⟨2025, 6, 15⟩ (.ok (.obj [("ResultsByTime", .arr [])]))
      (.ok (.obj [("ResultsByTime", .arr [])])) (fun _ => .ok 200)).2.1 rfl,
   (C1_result_status_mapping (.obj []) (.obj [])
      (fun k => if k = "WEBHOOK_URL" then some "https://hooks.example/T0" else none)
      ⟨2025, 6, 15⟩ (.error "RateLimitExceeded") (.ok (.obj []))
      (fun _ => .ok 200)).2.2.1 "https://hooks.example/T0" "RateLimitExceeded"
      rfl rfl,
   (C1_result_status_mapping (.obj []) (.obj [])
      (fun k => if k = "WEBHOOK_URL" then some "https://hooks.example/T0" else none)
      ⟨2025, 6, 15⟩ (.ok (.obj [("ResultsByTime", .arr [])]))
      (.ok (.obj [("ResultsByTime", .arr [])])) (fun _ => .ok 503)).2.2.2
      "https://hooks.example/T0" ⟨⟨0, 0⟩, [], "2025-06-01 to 2025-06-15"⟩
      ("Webhook failed with status " ++ toString 503) rfl rfl rfl⟩

/-- Claim C2: any webhook response status other than 200 makes
`send_webhook_notification` raise `"Webhook failed with status <s>"`, and
the invocation result then has `statusCode` 500; for status 500 the body is
exactly `"Error: Webhook failed with status 500"`. -/
theorem C2_webhook_non_200_fails :
    (∀ (url : String) (bd : BillingSummary) (status : Nat), status ≠ 200 →
      (send_webhook_notification url bd (fun _ => .ok status)).1 =
        .error ("Webhook failed with status " ++ toString status)) ∧
    (∀ (event context : JVal) (env : String → Option String) (url : String)
        (today : MDate) (tr sr : Except String JVal) (status : Nat)
        (bd : BillingSummary), env "WEBHOOK_URL" = some url →
      get_billing_data today tr sr = .ok bd → status ≠ 200 →
      (lambda_handler event context env today tr sr (fun _ => .ok status)).1.statusCode
        = 500) ∧
    (∀ (event context : JVal) (env : String → Option String) (url : String)
        (today : MDate) (tr sr : Except String JVal) (bd : BillingSummary),
      env "WEBHOOK_URL" = some url → get_billing_data today tr sr = .ok bd →
      (lambda_handler event context env today tr sr (fun _ => .ok 500)).1 =
        ⟨500, "Error: Webhook failed with status 500"⟩) := by
  have hsend : ∀ (url : String) (bd : BillingSummary) (status : Nat), status ≠ 200 →
      (send_webhook_notification url bd (fun _ => .ok status)).1 =
        .error ("Webhook failed with status " ++ toString status) := by
    intro url bd status hst
    unfold send_webhook_notification
    dsimp only
    rw [if_neg hst]
  refine ⟨hsend, ?_, ?_⟩
  · intro event context env url today tr sr status bd henv hgbd hst
    unfold lambda_handler
    rw [henv, hgbd]
    dsimp only
    have h2 : send_webhook_notification url bd (fun _ => .ok status) =
        (.error ("Webhook failed with status " ++ toString status),
         [⟨url, jsonDumps (buildMessage bd)⟩]) := by
      unfold send_webhook_notification
      dsimp only
      rw [if_neg hst]
    rw [h2]
  · intro event context env url today tr sr bd henv hgbd
    unfold lambda_handler
    rw [henv, hgbd]
    dsimp only
    have h2 : send_webhook_notification url bd (fun _ => .ok 500) =
        (.error ("Webhook failed with status " ++ toString 500),
         [⟨url, jsonDumps (buildMessage bd)⟩]) := by
      unfold send_webhook_notification
      dsimp only
      rw [if_neg (by decide : (500 : Nat) ≠ 200)]
    rw [h2]
    rfl

/-- Claim C2 witness: a concrete successful retrieval followed by a webhook
answering 500. -/
theorem C2_webhook_non_200_fails_witness :
    (send_webhook_notification "https://hooks.example/T0"
        ⟨⟨0, 0⟩, [], "2025-06-01 to 2025-06-15"⟩ (fun _ => .ok 404)).1 =
      .error ("Webhook failed with status " ++ toString 404) ∧
    (lambda_handler (.obj []) (.obj [])
        (fun k => if k = "WEBHOOK_URL" then some "https://hooks.example/T0" else none)
        ⟨2025, 6, 15⟩ (.ok (.obj [("ResultsByTime", .arr [])]))
        (.ok (.obj [("ResultsByTime", .arr [])])) (fun _ => .ok 500)).1 =
      ⟨500, "Error: Webhook failed with status 500"⟩ :=
  ⟨C2_webhook_non_200_fails.1 "https://hooks.example/T0"
      ⟨⟨0, 0⟩, [], "2025-06-01 to 2025-06-15"⟩ 404 (by decide),
   C2_webhook_non_200_fails.2.2 (.obj []) (.obj [])
      (fun k => if k = "WEBHOOK_URL" then some "https://hooks.example/T0" else none)
      "https://hooks.example/T0" ⟨2025, 6, 15⟩
      (.ok (.obj [("ResultsByTime", .arr [])]))
      (.ok (.obj [("ResultsByTime", .arr [])]))
      ⟨⟨0, 0⟩, [], "2025-06-01 to 2025-06-15"⟩ rfl rfl⟩

/-- Scenario A date fixture: `datetime.now().date()` = 2025-06-15. -/
def dateA : MDate := ⟨2025, 6, 15⟩

/-- Scenario A: total-cost query response with amount `"123.456"`. -/
def totalRespA : JVal :=
  .obj [("ResultsByTime", .arr [.obj [("Total", .obj [("UnblendedCost",
    .obj [("Amount", .str "123.456"), ("Unit", .str "USD")])])]])]

/-- Scenario A: grouped query response with groups `EC2: "100.00"` and
`S3: "23.456"`. -/
def serviceRespA : JVal :=
  .obj [("ResultsByTime", .arr [.obj [("Groups", .arr [
    .obj [("Keys", .arr [.str "EC2"]), ("Metrics", .obj [("UnblendedCost",
      .obj [("Amount", .str "100.00"), ("Unit", .str "USD")])])],
    .obj [("Keys", .arr [.str "S3"]), ("Metrics", .obj [("UnblendedCost",
      .obj [("Amount", .str "23.456"), ("Unit", .str "USD")])])]])]])]

/-- Scenario A: the billing summary produced by `get_billing_data`. -/
def bdA : BillingSummary :=
  ⟨⟨123456, 3⟩, [⟨"EC2", ⟨10000, 2⟩⟩, ⟨"S3", ⟨23456, 3⟩⟩],
   "2025-06-01 to 2025-06-15"⟩

theorem send_webhook_posts (url : String) (bd : BillingSummary)
    (http : PostRequest → Except String Nat) :
    (send_webhook_notification url bd http).2 =
      [⟨url, jsonDumps (buildMessage bd)⟩] := by
  unfold send_webhook_notification
  dsimp only
  cases http ⟨url, jsonDumps (buildMessage bd)⟩ with
  | error e => rfl
  | ok status =>
    dsimp only
    split <;> rfl

set_option maxRecDepth 100000 in
set_option maxHeartbeats 1000000 in
/-- Claim C7 (end-to-end scenario A): with total amount `"123.456"` and
groups `EC2: "100.00"`, `S3: "23.456"`, `get_billing_data` returns
`total_cost = 123.456` and `service_costs = [(EC2, 100), (S3, 23.456)]`
with EC2 first, and the serialized webhook body contains
`"Total Cost:* $123.46"`, and contains `"EC2: $100.00"` at a position
before `"S3: $23.46"`. -/
theorem C7_scenario_A :
    get_billing_data dateA (.ok totalRespA) (.ok serviceRespA) = .ok bdA ∧
    bdA.total_cost.toRat = 123456 / 1000 ∧
    bdA.service_costs.map (fun sc => (sc.service, sc.cost.toRat)) =
      [("EC2", (100 : ℚ)), ("S3", (23456 : ℚ) / 1000)] ∧
    (∀ url http, (send_webhook_notification url bdA http).2 =
      [⟨url, jsonDumps (buildMessage bdA)⟩]) ∧
    jsonDumps (buildMessage bdA) =
      "\x7b\"blocks\": [\x7b\"type\": \"header\", \"text\": \x7b\"type\": \"plain_text\", \"text\": \"\\ud83c\\udfe6 AWS Billing Alert\"\x7d\x7d, \x7b\"type\": \"section\", \"text\": \x7b\"type\": \"mrkdwn\", \"text\": \"*" ++
      "Total Cost:* $123.46" ++
      "\\n*Period:* 2025-06-01 to 2025-06-15\"\x7d\x7d, \x7b\"type\": \"section\", \"text\": \x7b\"type\": \"mrkdwn\", \"text\": \"*Top Services:*\\n\\u2022 EC2: $100.00\\n\\u2022 S3: $23.46\\n\"\x7d\x7d]\x7d" ∧
    jsonDumps (buildMessage bdA) =
      "\x7b\"blocks\": [\x7b\"type\": \"header\", \"text\": \x7b\"type\": \"plain_text\", \"text\": \"\\ud83c\\udfe6 AWS Billing Alert\"\x7d\x7d, \x7b\"type\": \"section\", \"text\": \x7b\"type\": \"mrkdwn\", \"text\": \"*Total Cost:* $123.46\\n*Period:* 2025-06-01 to 2025-06-15\"\x7d\x7d, \x7b\"type\": \"section\", \"text\": \x7b\"type\": \"mrkdwn\", \"text\": \"*Top Services:*\\n\\u2022 " ++
      "EC2: $100.00" ++
      "\\n\\u2022 " ++
      "S3: $23.46" ++
      "\\n\"\x7d\x7d]\x7d" := by
  refine ⟨rfl, ?_, ?_, fun url http => send_webhook_posts url bdA http,
    by decide, by decide⟩
  · norm_num [bdA, Amount.toRat, pow10]
  · norm_num [bdA, Amount.toRat, pow10]

/-- Claim C8: `get_billing_data` fails whenever a cost-API call raises or a
response is missing an expected field: a raised first or second call
propagates its error, and a missing `ResultsByTime`, `Total`,
`UnblendedCost`, `Amount`, `Groups` or `Keys` key makes the extraction
raise (the spec labels all of these `ExternalServiceError`; the model
carries the exception text in the `Except` error channel). -/
theorem C8_malformed_or_raised_fails :
    (∀ (today : MDate) (e : String) (sr : Except String JVal),
      get_billing_data today (.error e) sr = .error e) ∧
    (∀ (today : MDate) (vt : JVal) (e : String),
      get_billing_data today (.ok vt) (.error e) = .error e) ∧
    (∀ (today : MDate) (vt vs : JVal) (e : String),
      vt.getField "ResultsByTime" = .error e →
      get_billing_data today (.ok vt) (.ok vs) = .error e) ∧
    (∀ (today : MDate) (vt vs r0 : JVal) (rl : List JVal) (e : String),
      vt.getField "ResultsByTime" = .ok (.arr (r0 :: rl)) →
      r0.getField "Total" = .error e →
      get_billing_data today (.ok vt) (.ok vs) = .error e) ∧
    (∀ (today : MDate) (vt vs r0 t : JVal) (rl : List JVal) (e : String),
      vt.getField "ResultsByTime" = .ok (.arr (r0 :: rl)) →
      r0.getField "Total" = .ok t →
      t.getField "UnblendedCost" = .error e →
      get_billing_data today (.ok vt) (.ok vs) = .error e) ∧
    (∀ (today : MDate) (vt vs r0 t u : JVal) (rl : List JVal) (e : String),
      vt.getField "ResultsByTime" = .ok (.arr (r0 :: rl)) →
      r0.getField "Total" = .ok t →
      t.getField "UnblendedCost" = .ok u →
      u.getField "Amount" = .error e →
      get_billing_data today (.ok vt) (.ok vs) = .error e) ∧
    (∀ (today : MDate) (vt vs s0 : JVal) (sl : List JVal) (tc : Amount) (e : String),
      extract_total_cost vt = .ok tc →
      vs.getField "ResultsByTime" = .ok (.arr (s0 :: sl)) →
      s0.getField "Groups" = .error e →
      get_billing_data today (.ok vt) (.ok vs) = .error e) ∧
    (∀ (today : MDate) (vt vs s0 g : JVal) (sl gs : List JVal) (tc : Amount)
        (e : String),
      extract_total_cost vt = .ok tc →
      vs.getField "ResultsByTime" = .ok (.arr (s0 :: sl)) →
      s0.getField "Groups" = .ok (.arr gs) →
      g ∈ gs → g.getField "Keys" = .error e →
      ∃ e2, get_billing_data today (.ok vt) (.ok vs) = .error e2) := by
  refine ⟨fun today e sr => rfl, fun today vt e => rfl, ?_, ?_, ?_, ?_, ?_, ?_⟩
  · intro today vt vs e h
    have htc : extract_total_cost vt = .error e := by
      simp only [extract_total_cost, h, error_bind]
    simp only [get_billing_data, ok_bind, htc, error_bind]
  · intro today vt vs r0 rl e h1 h2
    have htc : extract_total_cost vt = .error e := by
      simp only [extract_total_cost, h1, ok_bind, JVal.getArr]
      simp only [h2, error_bind]
    simp only [get_billing_data, ok_bind, htc, error_bind]
  · intro today vt vs r0 t rl e h1 h2 h3
    have htc : extract_total_cost vt = .error e := by
      simp only [extract_total_cost, h1, ok_bind, JVal.getArr]
      simp only [h2, ok_bind, h3, error_bind]
    simp only [get_billing_data, ok_bind, htc, error_bind]
  · intro today vt vs r0 t u rl e h1 h2 h3 h4
    have htc : extract_total_cost vt = .error e := by
      simp only [extract_total_cost, h1, ok_bind, JVal.getArr]
      simp only [h2, ok_bind, h3, ok_bind, h4, error_bind]
    simp only [get_billing_data, ok_bind, htc, error_bind]
  · intro today vt vs s0 sl tc e h1 h2 h3
    have hsc : extract_service_costs vs = .error e := by
      simp only [extract_service_costs, h2, ok_bind, JVal.getArr]
      simp only [h3, error_bind]
    simp only [get_billing_data, ok_bind, h1, hsc, error_bind]
  · intro today vt vs s0 g sl gs tc e h1 h2 h3 hg h5
    cases hcg : collectGroups gs with
    | error e2 =>
      have hsc : extract_service_costs vs = .error e2 := by
        simp only [extract_service_costs, h2, ok_bind, JVal.getArr]
        simp only [h3, ok_bind, JVal.getArr, hcg]
      exact ⟨e2, by simp only [get_billing_data, ok_bind, h1, hsc, error_bind]⟩
    | ok l =>
      exfalso
      obtain ⟨sc, hsc2⟩ := collectGroups_ok_group gs l hcg g hg
      have hge : extract_group g = .error e := by
        simp only [extract_group, h5, error_bind]
      rw [hge] at hsc2
      exact absurd hsc2 (by simp)

/-- Claim C8 witness: a raised first call, a total response with no
`ResultsByTime` key, and a group with no `Keys` key. -/
theorem C8_malformed_or_raised_fails_witness :
    get_billing_data ⟨2025, 6, 15⟩ (.error "ConnectionError") (.ok (.obj [])) =
      .error "ConnectionError" ∧
    get_billing_data ⟨2025, 6, 15⟩ (.ok (.obj [("X", .str "y")]))
      (.ok (.obj [])) = .error (pyQuote "ResultsByTime") ∧
    (∃ e2, get_billing_data ⟨2025, 6, 15⟩ (.ok totalRespA)
      (.ok (.obj [("ResultsByTime",
        .arr [.obj [("Groups", .arr [.obj [("Metrics", .str "x")]])]])])) =
      .error e2) :=
  ⟨C8_malformed_or_raised_fails.1 ⟨2025, 6, 15⟩ "ConnectionError" (.ok (.obj [])),
   C8_malformed_or_raised_fails.2.2.1 ⟨2025, 6, 15⟩ (.obj [("X", .str "y")])
     (.obj []) (pyQuote "ResultsByTime") rfl,
   C8_malformed_or_raised_fails.2.2.2.2.2.2.2 ⟨2025, 6, 15⟩ totalRespA
     (.obj [("ResultsByTime",
       .arr [.obj [("Groups", .arr [.obj [("Metrics", .str "x")]])]])])
     (.obj [("Groups", .arr [.obj [("Metrics", .str "x")]])])
     (.obj [("Metrics", .str "x")]) [] [.obj [("Metrics", .str "x")]]
     ⟨123456, 3⟩ (pyQuote "Keys") rfl rfl rfl
     (List.mem_cons_self _ _) rfl⟩
